import Mathlib

/-!
Shallow embedding of the recyclable-items classifier demo
(`edge_AI_streamlit_app.py`, `test_import.py`, `test_opencv_fallback.py`).
Confidences are modelled as rationals; the Python dict `predictions` is an
insertion-ordered association list, matching how the script iterates it.
-/

/-- Lines 113-118 of edge_AI_streamlit_app.py: the hard-coded mock
`predictions` dict, in its insertion order. -/
def predictions : List (String × ℚ) :=
  [("Plastic Bottle", (85 : ℚ)/100), ("Aluminum Can", (10 : ℚ)/100),
   ("Paper", (3 : ℚ)/100), ("Glass", (2 : ℚ)/100)]

/-- Lines 125-127 of the app: `for item, confidence in predictions.items()`
writes each entry in dict insertion order; no sorting or rescaling happens
between the dict and the page. -/
def displayedResults (preds : List (String × ℚ)) : List (String × ℚ) := preds

/-- Python `max` with a `key` function, folded left over the remaining items:
the current best is replaced only when a later item is strictly greater, so
the earliest maximal item wins ties. -/
def pickMax (best : String × ℚ) (ps : List (String × ℚ)) : String × ℚ :=
  ps.foldl (fun b q => if b.2 < q.2 then q else b) best

/-- Line 130 of the app: `top_prediction = max(predictions, key=predictions.get)`,
paired with the confidence the script looks up on line 131. `none` models the
`ValueError` Python raises on an empty dict. -/
def top_prediction : List (String × ℚ) → Option (String × ℚ)
  | [] => none
  | p :: ps => some (pickMax p ps)

/-- The displayed confidences never increase from one row to the next. -/
def sortedDesc (l : List (String × ℚ)) : Prop :=
  l.Chain' (fun a b => b.2 ≤ a.2)

theorem pickMax_cons (best q : String × ℚ) (ps : List (String × ℚ)) :
    pickMax best (q :: ps) = pickMax (if best.2 < q.2 then q else best) ps := rfl

/-- The folded maximum dominates the seed and every later item. -/
theorem pickMax_ge (ps : List (String × ℚ)) (best : String × ℚ) :
    best.2 ≤ (pickMax best ps).2 ∧ ∀ q ∈ ps, q.2 ≤ (pickMax best ps).2 := by
  induction ps generalizing best with
  | nil => exact ⟨le_refl _, by simp⟩
  | cons q ps ih =>
    rw [pickMax_cons]
    by_cases h : best.2 < q.2
    · rw [if_pos h]
      obtain ⟨h1, h2⟩ := ih q
      refine ⟨le_of_lt (lt_of_lt_of_le h h1), ?_⟩
      intro r hr
      rcases List.mem_cons.mp hr with hr | hr
      · exact hr ▸ h1
      · exact h2 r hr
    · rw [if_neg h]
      obtain ⟨h1, h2⟩ := ih best
      refine ⟨h1, ?_⟩
      intro r hr
      rcases List.mem_cons.mp hr with hr | hr
      · exact hr ▸ le_trans (not_lt.mp h) h1
      · exact h2 r hr

/-- The folded maximum is the EARLIEST maximal item: the seed-plus-list splits
around it with all strictly smaller values before it and no larger value
after it. -/
theorem pickMax_split (ps : List (String × ℚ)) (best : String × ℚ) :
    ∃ l1 l2, best :: ps = l1 ++ (pickMax best ps) :: l2 ∧
      (∀ q ∈ l1, q.2 < (pickMax best ps).2) ∧
      (∀ q ∈ l2, q.2 ≤ (pickMax best ps).2) := by
  induction ps generalizing best with
  | nil => exact ⟨[], [], rfl, by simp, by simp⟩
  | cons q ps ih =>
    rw [pickMax_cons]
    by_cases h : best.2 < q.2
    · rw [if_pos h]
      obtain ⟨l1, l2, heq, hl1, hl2⟩ := ih q
      refine ⟨best :: l1, l2, ?_, ?_, hl2⟩
      · rw [List.cons_append, ← heq]
      · intro r hr
        rcases List.mem_cons.mp hr with hr | hr
        · exact hr ▸ lt_of_lt_of_le h (pickMax_ge ps q).1
        · exact hl1 r hr
    · rw [if_neg h]
      obtain ⟨l1, l2, heq, hl1, hl2⟩ := ih best
      cases l1 with
      | nil =>
        simp only [List.nil_append] at heq
        obtain ⟨hb, hps⟩ := List.cons.inj heq
        refine ⟨[], q :: ps, by rw [List.nil_append, ← hb], by simp, ?_⟩
        intro r hr
        rcases List.mem_cons.mp hr with hr | hr
        · exact hr ▸ (hb ▸ not_lt.mp h)
        · exact hl2 r (hps ▸ hr)
      | cons a l1 =>
        rw [List.cons_append] at heq
        obtain ⟨hb, hps⟩ := List.cons.inj heq
        have hbmem : best ∈ a :: l1 := by rw [hb]; exact List.mem_cons_self a l1
        refine ⟨best :: q :: l1, l2, ?_, ?_, hl2⟩
        · simp only [List.cons_append]; rw [← hps]
        · intro r hr
          rcases List.mem_cons.mp hr with hr | hr
          · exact hr ▸ hl1 best hbmem
          · rcases List.mem_cons.mp hr with hr | hr
            · exact hr ▸ lt_of_le_of_lt (not_lt.mp h) (hl1 best hbmem)
            · exact hl1 r (hb ▸ List.mem_cons_of_mem a hr)

/-- C1: for the fixed mapping, the top entry is ("Plastic Bottle", 0.85) and
the displayed ordering is exactly the given order, which is descending. -/
theorem C1_displayed_ranking :
    top_prediction predictions = some ("Plastic Bottle", (85 : ℚ)/100) ∧
    displayedResults predictions = predictions ∧
    sortedDesc (displayedResults predictions) := by
  refine ⟨?_, rfl, ?_⟩
  · norm_num [top_prediction, pickMax, predictions, List.foldl]
  · norm_num [sortedDesc, displayedResults, predictions, List.chain'_cons]

/-- C2, counterexample: the code never sorts — the displayed ordering is the
dict insertion order, which for the scores 0.1, 0.9 is not descending, so
the claimed sort by descending confidence does not happen. -/
theorem C2_no_sort_counterexample :
    displayedResults [("A", (1 : ℚ)/10), ("B", (9 : ℚ)/10)] =
      [("A", (1 : ℚ)/10), ("B", (9 : ℚ)/10)] ∧
    ¬ sortedDesc (displayedResults [("A", (1 : ℚ)/10), ("B", (9 : ℚ)/10)]) := by
  refine ⟨rfl, ?_⟩
  norm_num [sortedDesc, displayedResults, List.chain'_cons]

/-- C2, amended: the displayed ordering is the input order (no sorting), and
the top entry is the earliest entry of maximal confidence — everything before
it is strictly smaller and nothing after it is larger — so exact ties are
broken by ascending position; in particular for scores 0.5, 0.5, 0.0 with
labels A, B, C the top entry is A. -/
theorem C2_first_max (preds : List (String × ℚ)) (h : preds ≠ []) :
    displayedResults preds = preds ∧
    ∃ p l1 l2, top_prediction preds = some p ∧
      preds = l1 ++ p :: l2 ∧
      (∀ q ∈ l1, q.2 < p.2) ∧ (∀ q ∈ l2, q.2 ≤ p.2) := by
  refine ⟨rfl, ?_⟩
  cases preds with
  | nil => exact absurd rfl h
  | cons p ps =>
    obtain ⟨l1, l2, heq, hl1, hl2⟩ := pickMax_split ps p
    exact ⟨pickMax p ps, l1, l2, rfl, heq, hl1, hl2⟩

/-- Witness for C2_first_max at the tie-break example from the claim. -/
theorem C2_first_max_witness :
    (([("A", (1 : ℚ)/2), ("B", (1 : ℚ)/2), ("C", (0 : ℚ))] : List (String × ℚ)) ≠ []) ∧
    (displayedResults [("A", (1 : ℚ)/2), ("B", (1 : ℚ)/2), ("C", (0 : ℚ))] =
        [("A", (1 : ℚ)/2), ("B", (1 : ℚ)/2), ("C", (0 : ℚ))] ∧
      ∃ p l1 l2,
        top_prediction [("A", (1 : ℚ)/2), ("B", (1 : ℚ)/2), ("C", (0 : ℚ))] = some p ∧
        [("A", (1 : ℚ)/2), ("B", (1 : ℚ)/2), ("C", (0 : ℚ))] = l1 ++ p :: l2 ∧
        (∀ q ∈ l1, q.2 < p.2) ∧ (∀ q ∈ l2, q.2 ≤ p.2)) :=
  ⟨by decide, C2_first_max [("A", (1 : ℚ)/2), ("B", (1 : ℚ)/2), ("C", (0 : ℚ))] (by decide)⟩

/-- C3, counterexample: no normalization pass exists in the code. A score
list summing to 1.4 — outside the claimed ±0.01 tolerance around 1 — is
displayed exactly as given, so raw unnormalized scores are shown. -/
theorem C3_raw_scores_counterexample :
    ¬ |(([("X", (7 : ℚ)/10), ("Y", (7 : ℚ)/10)]).map Prod.snd).sum - 1| ≤ (1 : ℚ)/100 ∧
    displayedResults [("X", (7 : ℚ)/10), ("Y", (7 : ℚ)/10)] =
      [("X", (7 : ℚ)/10), ("Y", (7 : ℚ)/10)] ∧
    ((displayedResults [("X", (7 : ℚ)/10), ("Y", (7 : ℚ)/10)]).map Prod.snd).sum ≠ 1 := by
  refine ⟨?_, rfl, ?_⟩
  · norm_num [abs_le]
  · norm_num [displayedResults]

/-- C3, amended: the code applies no normalization whatsoever — every score
list is displayed exactly as given — and the only scores the app ever
displays, the fixed mock `predictions`, already sum to exactly 1. -/
theorem C3_no_normalization (preds : List (String × ℚ)) :
    displayedResults preds = preds ∧ (predictions.map Prod.snd).sum = 1 := by
  refine ⟨rfl, ?_⟩
  norm_num [predictions]

/-!
Image pipeline, from the PIL-based preprocessing in test_import.py lines
78-93 and test_opencv_fallback.py lines 46-57 (the comments there call it
"the same as in the main app"). A decoded PIL image is a mode tag, a size,
a pixel accessor giving the byte value of each channel at each position,
and a palette table used only in palette mode.
-/

/-- PIL color modes relevant to the repository (RGB, RGBA, grayscale L,
palette P). -/
inductive ImageMode
  | rgb
  | rgba
  | grayscale
  | palette
  deriving DecidableEq

/-- Channel count of each PIL mode. -/
def ImageMode.channels : ImageMode → Nat
  | .rgb => 3
  | .rgba => 4
  | .grayscale => 1
  | .palette => 1

/-- An in-memory decoded image as produced by `Image.open`: pixel bytes are
addressed by row, column and channel index (meaningful below the mode's
channel count). -/
structure PILImage where
  mode : ImageMode
  width : Nat
  height : Nat
  px : Nat → Nat → Nat → Fin 256
  pal : Fin 256 → Nat → Fin 256

/-- `img.convert("RGB")`: PIL's conversion to three-channel RGB — RGBA drops
the alpha channel, grayscale replicates the single channel, palette images
look their index up in the palette table. The colorimetric details beyond
channel selection are those of PIL; the claims depend only on the channel
count and the byte range, which the accessor type carries. -/
def convertRGB (img : PILImage) : PILImage where
  mode := .rgb
  width := img.width
  height := img.height
  px := fun y x c =>
    match img.mode with
    | .rgb => img.px y x c
    | .rgba => img.px y x c
    | .grayscale => img.px y x 0
    | .palette => img.pal (img.px y x 0) c
  pal := img.pal

/-- Lines 86-88 of test_import.py (and 47-50 of test_opencv_fallback.py):
`if img.mode != 'RGB': img = img.convert('RGB')`. -/
def decodeToRGB (img : PILImage) : PILImage :=
  if img.mode ≠ ImageMode.rgb then convertRGB img else img

/-- The resampling filters the repository mentions; the code always passes
`Image.Resampling.LANCZOS`. -/
inductive ResampleFilter
  | lanczos
  | nearest
  deriving DecidableEq

/-- `img.resize((w, h), filter)`: PIL resamples to exactly the target size
and clips every output channel back to the byte range. The sinc-based
LANCZOS kernel is irrational, so its weights are not representable here;
the embedding samples source pixels, which preserves exactly what PIL
guarantees and the claims use — the output size and the clipped byte
range. -/
def pilResize (img : PILImage) (w h : Nat) (f : ResampleFilter) : PILImage where
  mode := img.mode
  width := w
  height := h
  px := fun y x c =>
    match f with
    | .lanczos => img.px (y * img.height / h) (x * img.width / w) c
    | .nearest => img.px (y * img.height / h) (x * img.width / w) c
  pal := img.pal

/-- A numpy array: a shape and a value at every index vector. -/
structure Tensor where
  shape : List Nat
  val : List Nat → ℚ

/-- Line 90 of test_import.py: `np.array(img, dtype=np.float32) / 255.0`.
A height-by-width-by-3 array whose entries are channel bytes divided
by 255. -/
def toArray255 (img : PILImage) : Tensor where
  shape := [img.height, img.width, 3]
  val := fun idx =>
    match idx with
    | y :: x :: c :: [] => ((img.px y x c).val : ℚ) / 255
    | _ => 0

/-- Line 93 of test_import.py: `np.expand_dims(processed_image, axis=0)` —
prepend a batch dimension of size 1. -/
def expandDims0 (t : Tensor) : Tensor where
  shape := 1 :: t.shape
  val := fun idx =>
    match idx with
    | _ :: rest => t.val rest
    | [] => 0

/-- Lines 86-93 of test_import.py: convert to RGB, resize to 224 by 224 with
LANCZOS, scale to [0,1] floats, add the batch dimension. -/
def preprocessImage (img : PILImage) : Tensor :=
  expandDims0 (toArray255 (pilResize (decodeToRGB img) 224 224 ResampleFilter.lanczos))

/-- Every entry of the scaled array of any image lies between 0 and 1. -/
theorem toArray255_bounds (img : PILImage) (idx : List Nat) :
    0 ≤ (toArray255 img).val idx ∧ (toArray255 img).val idx ≤ 1 := by
  rcases idx with _ | ⟨y, _ | ⟨x, _ | ⟨c, _ | ⟨d, rest⟩⟩⟩⟩ <;>
    simp only [toArray255] <;> norm_num
  constructor
  · positivity
  · rw [div_le_one (by norm_num)]
    exact_mod_cast Nat.lt_succ_iff.mp (img.px y x c).isLt

/-- C4: preprocessing any decoded image yields a tensor of shape
(1, 224, 224, 3) with every element in [0, 1]. -/
theorem C4_preprocess_shape_range (img : PILImage) :
    (preprocessImage img).shape = [1, 224, 224, 3] ∧
    ∀ idx, 0 ≤ (preprocessImage img).val idx ∧ (preprocessImage img).val idx ≤ 1 := by
  refine ⟨rfl, fun idx => ?_⟩
  rcases idx with _ | ⟨i, rest⟩
  · simp [preprocessImage, expandDims0]
  · simpa [preprocessImage, expandDims0] using
      toArray255_bounds (pilResize (decodeToRGB img) 224 224 ResampleFilter.lanczos) rest

/-- C5: whatever the input mode, the decoded buffer is three-channel RGB. -/
theorem C5_decode_three_channels (img : PILImage) :
    (decodeToRGB img).mode = ImageMode.rgb ∧
    ((decodeToRGB img).mode).channels = 3 := by
  have h : (decodeToRGB img).mode = ImageMode.rgb := by
    unfold decodeToRGB
    by_cases h : img.mode = ImageMode.rgb
    · simp [h]
    · simp [h, convertRGB]
  exact ⟨h, by rw [h]; rfl⟩

/-!
Module import behavior. The main app imports cv2 unconditionally (line 4 of
edge_AI_streamlit_app.py); both test scripts wrap the same import in
try/except ImportError and fall back to PIL.
-/

/-- The part of the Python environment that decides an import: whether the
cv2 module is installed. -/
structure PyEnv where
  cv2Available : Bool
  deriving DecidableEq

/-- Either the module finished importing (recording whether OpenCV ended up
available) or an ImportError escaped and the program never ran. -/
inductive ModuleStart
  | ok (opencvAvailable : Bool)
  | failed
  deriving DecidableEq

/-- Line 4 of edge_AI_streamlit_app.py: a bare `import cv2` at module top
level, outside any try/except — when cv2 is absent, ImportError escapes and
the app never starts. -/
def appModuleStart (env : PyEnv) : ModuleStart :=
  if env.cv2Available then .ok true else .failed

/-- Lines 14-24 of test_opencv_fallback.py (and 39-46 of test_import.py):
`import cv2` inside try/except ImportError, setting OPENCV_AVAILABLE and
printing that the PIL fallback is used. -/
def guardedCv2ImportStart (env : PyEnv) : ModuleStart :=
  if env.cv2Available then .ok true else .ok false

/-!
One run of the Streamlit script with an uploaded file, following the source
order: `Image.open` (line 82), temp-file creation and `image.save`
(lines 86-88, `delete=False`), the classification try/except (lines
96-137), and the cleanup `os.unlink` at the bottom of the script
(lines 169-170).
-/

/-- Failure points of a run that are NOT caught by the try/except: they sit
outside it in the script. -/
inductive PyCrash
  | unidentifiedImage
  | saveFailed
  deriving DecidableEq

/-- What the results column ends up showing (or how the script died). -/
inductive Outcome
  | noUpload
  | crashed (e : PyCrash)
  | errorShown (msg : String)
  | results (shown : List (String × ℚ)) (top : Option (String × ℚ))
  deriving DecidableEq

/-- Whether a ranked result was displayed. -/
def Outcome.isResults : Outcome → Bool
  | .results _ _ => true
  | _ => false

/-- An uploaded file as the script sees it: the decoded image (which the
mock classifier never consults), whether `Image.open` succeeds, whether
`image.save` to the temporary .jpg succeeds (it raises for alpha images
saved as JPEG), and any exception raised inside the classification try
block. -/
structure Upload where
  img : PILImage
  decodeOk : Bool
  saveOk : Bool
  classifyExc : Option String

/-- End state of one script run: what was displayed, and whether the
`delete=False` temporary file was still on disk when the run ended. -/
structure RunResult where
  outcome : Outcome
  tempFileLeft : Bool

/-- The whole script, lines 80-170: open the upload, save it to a
`delete=False` temp file, run the mock classification inside try/except
(the except branch shows `Error during classification: ...`), and unlink
the temp file at the bottom — a line reached only when no exception
escaped earlier. -/
def runScript (u : Option Upload) : RunResult :=
  match u with
  | none => ⟨.noUpload, false⟩
  | some up =>
    if up.decodeOk then
      if up.saveOk then
        match up.classifyExc with
        | some msg => ⟨.errorShown ("Error during classification: " ++ msg), false⟩
        | none => ⟨.results (displayedResults predictions) (top_prediction predictions), false⟩
      else ⟨.crashed .saveFailed, true⟩
    else ⟨.crashed .unidentifiedImage, false⟩

/-- Modelled from the spec: the error cases of `rank` (§4.4); the label file
`class_names.txt` is declared among the app's Required Files (lines
155-158) but no loading or checking code exists in the repository. -/
inductive RankError
  | labelCountMismatch
  deriving DecidableEq

/-- Modelled from the spec: re-division normalization (§4.4) — applied when
the score sum is more than 0.01 away from 1. -/
def normalizeScores (scores : List ℚ) : List ℚ :=
  if 100 * |scores.sum - 1| ≤ 1 then scores else scores.map (fun s => s / scores.sum)

/-- Stable descending insertion: an item moves ahead only of strictly
smaller confidences, so equal confidences keep their index order. -/
def insertDesc (p : String × ℚ) : List (String × ℚ) → List (String × ℚ)
  | [] => [p]
  | q :: qs => if q.2 < p.2 then p :: q :: qs else q :: insertDesc p qs

/-- Stable descending sort by confidence. -/
def sortDescStable : List (String × ℚ) → List (String × ℚ)
  | [] => []
  | p :: ps => insertDesc p (sortDescStable ps)

/-- Modelled from the spec: `rank(ScoreVector, ClassLabel)` (§4.4) — fail
with LabelCountMismatchError when the score vector length differs from the
label count, otherwise normalize if needed and sort descending with stable
ties. Absent from the repository, whose labels and scores come from one
fixed dict. -/
def rank (scores : List ℚ) (labels : List String) :
    Except RankError (List (String × ℚ)) :=
  if labels.length ≠ scores.length then .error .labelCountMismatch
  else .ok (sortDescStable (labels.zip (normalizeScores scores)))

/-- Two concrete decoded images used by witnesses, differing in every pixel. -/
def imgRed : PILImage where
  mode := ImageMode.rgb
  width := 224
  height := 224
  px := fun _ _ _ => 200
  pal := fun _ _ => 0

/-- A second concrete decoded image with different pixel data. -/
def imgBlue : PILImage where
  mode := ImageMode.rgb
  width := 224
  height := 224
  px := fun _ _ _ => 30
  pal := fun _ _ => 0

/-- C6, the code of line 4 of the app at the failing input: with cv2 absent
the app's unguarded import fails and the app never runs, while the
guarded-import pattern of the repository's own fallback tests succeeds and
records that PIL is to be used. -/
theorem C6_unguarded_cv2_import :
    appModuleStart ⟨false⟩ = ModuleStart.failed ∧
    guardedCv2ImportStart ⟨false⟩ = ModuleStart.ok false := ⟨rfl, rfl⟩

/-- C7, counterexample: empty or undecodable bytes make `Image.open` raise
at line 82, OUTSIDE the classification try/except — the script dies with
the unhandled decode exception instead of raising any wrapper error with a
stage name. -/
theorem C7_decode_crash_counterexample :
    (runScript (some ⟨imgRed, false, true, none⟩)).outcome =
      Outcome.crashed PyCrash.unidentifiedImage := rfl

/-- C7, amended: no ClassificationError type exists. A decode failure
propagates unhandled from outside the try block; an exception raised inside
the classification block is caught and shown as a message wrapping the
original cause after the text `Error during classification: `, with no
retry and with no ranked result displayed. -/
theorem C7_caught_error_display (up : Upload) (msg : String)
    (h1 : up.decodeOk = true) (h2 : up.saveOk = true)
    (h3 : up.classifyExc = some msg) :
    (runScript (some up)).outcome =
      Outcome.errorShown ("Error during classification: " ++ msg) ∧
    ((runScript (some up)).outcome).isResults = false := by
  refine ⟨?_, ?_⟩ <;> simp [runScript, h1, h2, h3, Outcome.isResults]

/-- Witness for C7_caught_error_display at a concrete failing upload. -/
theorem C7_caught_error_display_witness :
    (runScript (some ⟨imgRed, true, true, some ("boom")⟩)).outcome =
      Outcome.errorShown ("Error during classification: " ++ "boom") ∧
    ((runScript (some ⟨imgRed, true, true, some ("boom")⟩)).outcome).isResults = false :=
  C7_caught_error_display ⟨imgRed, true, true, some ("boom")⟩ ("boom") rfl rfl rfl

/-- C8 (modelled from the spec, §4.4 and §6): whenever the label count
differs from the score vector length, `rank` fails with
LabelCountMismatchError and returns nothing else. -/
theorem C8_label_count_mismatch (scores : List ℚ) (labels : List String)
    (h : labels.length ≠ scores.length) :
    rank scores labels = Except.error RankError.labelCountMismatch := by
  unfold rank
  rw [if_pos h]

/-- Witness for C8_label_count_mismatch at the claim's scenario: a 3-entry
label file against a length-4 model output. -/
theorem C8_label_count_mismatch_witness :
    ((["Plastic Bottle", "Aluminum Can", "Paper"] : List String).length ≠
      ([(85 : ℚ)/100, (10 : ℚ)/100, (3 : ℚ)/100, (2 : ℚ)/100] : List ℚ).length) ∧
    rank [(85 : ℚ)/100, (10 : ℚ)/100, (3 : ℚ)/100, (2 : ℚ)/100]
        ["Plastic Bottle", "Aluminum Can", "Paper"] =
      Except.error RankError.labelCountMismatch :=
  ⟨by decide,
   C8_label_count_mismatch [(85 : ℚ)/100, (10 : ℚ)/100, (3 : ℚ)/100, (2 : ℚ)/100]
     ["Plastic Bottle", "Aluminum Can", "Paper"] (by decide)⟩

/-- C9, counterexample: an upload that decodes but whose `image.save` to the
temporary .jpg raises (an RGBA image saved with a .jpg suffix does this)
aborts the script between the `delete=False` temp-file creation and the
`os.unlink` at the bottom, leaving the temporary file on disk. -/
theorem C9_temp_file_leak_counterexample :
    (runScript (some ⟨imgRed, true, false, none⟩)).tempFileLeft = true := rfl

/-- C9, amended: the temporary file is removed exactly when the script runs
to its last line — including when an exception inside the classification
block is caught and shown — but a failure between the temp-file creation
and the cleanup line (the save step) ends the run with the file still on
disk. -/
theorem C9_cleanup_characterization (u : Option Upload) :
    (runScript u).tempFileLeft = true ↔
      ∃ up, u = some up ∧ up.decodeOk = true ∧ up.saveOk = false := by
  cases u with
  | none => simp [runScript]
  | some up =>
    cases hd : up.decodeOk <;> cases hs : up.saveOk <;>
      cases hc : up.classifyExc <;> simp [runScript, hd, hs, hc]

/-- C10: the mock classifier never reads the uploaded image — any two
uploads that reach the results column produce the identical display, the
fixed list with top entry ("Plastic Bottle", 0.85). -/
theorem C10_output_independent_of_image (u1 u2 : Upload)
    (h1 : u1.decodeOk = true) (h2 : u1.saveOk = true) (h3 : u1.classifyExc = none)
    (h4 : u2.decodeOk = true) (h5 : u2.saveOk = true) (h6 : u2.classifyExc = none) :
    (runScript (some u1)).outcome = (runScript (some u2)).outcome ∧
    (runScript (some u1)).outcome =
      Outcome.results predictions (some ("Plastic Bottle", (85 : ℚ)/100)) := by
  have htop : top_prediction predictions = some ("Plastic Bottle", (85 : ℚ)/100) := by
    norm_num [top_prediction, pickMax, predictions, List.foldl]
  have e1 : (runScript (some u1)).outcome =
      Outcome.results predictions (some ("Plastic Bottle", (85 : ℚ)/100)) := by
    simp [runScript, h1, h2, h3, displayedResults, htop]
  have e2 : (runScript (some u2)).outcome =
      Outcome.results predictions (some ("Plastic Bottle", (85 : ℚ)/100)) := by
    simp [runScript, h4, h5, h6, displayedResults, htop]
  exact ⟨e1.trans e2.symm, e1⟩

/-- Witness for C10_output_independent_of_image at two uploads whose images
differ in every pixel. -/
theorem C10_output_independent_of_image_witness :
    (runScript (some ⟨imgRed, true, true, none⟩)).outcome =
      (runScript (some ⟨imgBlue, true, true, none⟩)).outcome ∧
    (runScript (some ⟨imgRed, true, true, none⟩)).outcome =
      Outcome.results predictions (some ("Plastic Bottle", (85 : ℚ)/100)) :=
  C10_output_independent_of_image ⟨imgRed, true, true, none⟩ ⟨imgBlue, true, true, none⟩
    rfl rfl rfl rfl rfl rfl
